import Mathlib

/-!
Verification development for the Blooming Beauty Skin POS client.

Part 1 models the caching proxy (src/static/service-worker.js): the cache
partitions, the three fetch strategies, the request router and the
activate-time partition cleanup.  Part 2 models the client data layer
(src/static/script.js): catalog pagination state, local-storage snapshots,
cart reconciliation, the checkout guard and escapeHtml.

Modelling conventions: the asynchronous JavaScript handlers are embedded as
pure state-passing functions; a network fetch is an explicit parameter
(NetResult) standing for the settled promise; DOM rendering calls are out of
scope and are not part of the state; JavaScript strings are modelled as Lean
strings (escapeHtml works over character lists); currency amounts parsed by
parseFloat are modelled as rationals.
-/

/- ## Service worker constants (service-worker.js lines 1-14) -/

def SW_VERSION : String := "bbs-pwa-v3"

def STATIC_CACHE : String := SW_VERSION ++ "-static"

def RUNTIME_CACHE : String := SW_VERSION ++ "-runtime"

def OFFLINE_URL : String := "/offline"

/-- A captured HTTP response: status, body, whether it is a network-error
type response (response.type === "error"), and its Content-Type header. -/
structure Response where
  status : Nat
  body : String
  isError : Bool
  contentType : Option String
deriving DecidableEq

/-- Response.error(): the synthetic network-error response. -/
def Response.netError : Response :=
  { status := 0, body := "", isError := true, contentType := none }

/-- Entries of one named cache: request URL to captured response. -/
abbrev CacheEntries := List (String × Response)

/-- The CacheStorage: named partitions in creation order, each with its
entries. -/
abbrev CacheMap := List (String × CacheEntries)

/-- cache.match(request) within a single cache. -/
def lookupEntry : CacheEntries → String → Option Response
  | [], _ => none
  | (k, v) :: rest, url => if k = url then some v else lookupEntry rest url

/-- cache.put(request, response): overwrite the entry for the URL, or add
it. -/
def upsertEntry : CacheEntries → String → Response → CacheEntries
  | [], url, r => [(url, r)]
  | (k, v) :: rest, url, r =>
      if k = url then (url, r) :: rest else (k, v) :: upsertEntry rest url r

/-- caches.open(name) followed by cache.match(url): look up in the named
partition only. -/
def cacheLookup : CacheMap → String → String → Option Response
  | [], _, _ => none
  | (n, es) :: rest, name, url =>
      if n = name then lookupEntry es url else cacheLookup rest name url

/-- caches.open(name) followed by cache.put(url, r): write into the named
partition, creating it if absent. -/
def openPut : CacheMap → String → String → Response → CacheMap
  | [], name, url, r => [(name, [(url, r)])]
  | (n, es) :: rest, name, url, r =>
      if n = name then (n, upsertEntry es url r) :: rest
      else (n, es) :: openPut rest name url r

/-- caches.match(request): scan every partition in order and return the
first hit. -/
def matchAll : CacheMap → String → Option Response
  | [], _ => none
  | (_, es) :: rest, url =>
      match lookupEntry es url with
      | some r => some r
      | none => matchAll rest url

/-- The settled outcome of a fetch(request) call: a response, or a
rejection (network unreachable). -/
inductive NetResult where
  | ok (r : Response)
  | fail
deriving DecidableEq

/- ## cacheSuccessResponse (service-worker.js lines 42-50)

if (!response || response.status !== 200 || response.type === "error")
return the response untouched; otherwise put a clone into the named cache
and return it.  The null-response guard is vacuous here since NetResult.ok
always carries a response. -/

def cacheSuccessResponse (name url : String) (r : Response) (cs : CacheMap) :
    Response × CacheMap :=
  if r.status ≠ 200 ∨ r.isError = true then (r, cs)
  else (r, openPut cs name url r)

/- ## staleWhileRevalidate (service-worker.js lines 52-66)

Cached copy from the static partition is returned immediately when present;
the network refresh still runs and its successful result is written through
cacheSuccessResponse.  With no cached copy, the awaited network result (or
Response.error() when it rejected) is returned. -/

def staleWhileRevalidate (net : NetResult) (cs : CacheMap) (url : String) :
    Response × CacheMap :=
  match net, cacheLookup cs STATIC_CACHE url with
  | .ok r, some c => (c, (cacheSuccessResponse STATIC_CACHE url r cs).2)
  | .ok r, none => cacheSuccessResponse STATIC_CACHE url r cs
  | .fail, some c => (c, cs)
  | .fail, none => (Response.netError, cs)

/- ## networkFirst (service-worker.js lines 68-80)

Try the network, caching successes in the runtime partition; on rejection
fall back to the runtime cached copy, then to caches.match(OFFLINE_URL).
That last lookup can itself miss, in which case the JS promise resolves to
undefined - modelled by the Option in the first component. -/

def networkFirst (net : NetResult) (cs : CacheMap) (url : String) :
    Option Response × CacheMap :=
  match net with
  | .ok r =>
      let p := cacheSuccessResponse RUNTIME_CACHE url r cs
      (some p.1, p.2)
  | .fail =>
      match cacheLookup cs RUNTIME_CACHE url with
      | some c => (some c, cs)
      | none => (matchAll cs OFFLINE_URL, cs)

/- ## navigationHandler (service-worker.js lines 82-101)

Network first; a successful fetch is written through cacheSuccessResponse
and returned unconditionally.  On rejection, fall back in order: any cached
copy of the exact request, the cached site root "/", the cached offline
page, and finally Response.error(). -/

def navigationHandler (net : NetResult) (cs : CacheMap) (url : String) :
    Response × CacheMap :=
  match net with
  | .ok r => (r, (cacheSuccessResponse RUNTIME_CACHE url r cs).2)
  | .fail =>
      match matchAll cs url with
      | some page => (page, cs)
      | none =>
          match matchAll cs "/" with
          | some home => (home, cs)
          | none =>
              match matchAll cs OFFLINE_URL with
              | some off => (off, cs)
              | none => (Response.netError, cs)

/- ## offlineJsonResponse (service-worker.js lines 103-108) -/

def offlineJsonResponse (message : String) : Response :=
  { status := 503
    body := "\x7b\"success\":false,\"message\":\"" ++ message ++ "\"\x7d"
    isError := false
    contentType := some "application/json" }

/-- String.prototype.startsWith, computed over the character data (the
built-in String.startsWith is not kernel-reducible). -/
def strStartsWith (s p : String) : Bool := p.data.isPrefixOf s.data

/-- An intercepted request, as seen by the fetch listener: method, whether
its URL origin equals the worker origin, its mode, and its pathname. -/
structure Request where
  method : String
  sameOrigin : Bool
  mode : String
  path : String
deriving DecidableEq

/-- The /api/ branch of the fetch listener: fetch directly, synthesizing the
offline JSON response when the fetch rejects (lines 126-131). -/
def apiFetch : NetResult → Response
  | .ok r => r
  | .fail => offlineJsonResponse "You are offline right now."

/- ## The fetch listener (service-worker.js lines 110-139)

none models a pass-through (no event.respondWith); otherwise the chosen
strategy produces the responded value and the final cache state.  The inner
Option is none only when networkFirst resolves to undefined. -/

def handleFetch (req : Request) (net : NetResult) (cs : CacheMap) :
    Option (Option Response × CacheMap) :=
  if req.method ≠ "GET" then none
  else if req.sameOrigin = false then none
  else if req.mode = "navigate" then
    let p := navigationHandler net cs req.path
    some (some p.1, p.2)
  else if strStartsWith req.path "/api/" then
    some (some (apiFetch net), cs)
  else if strStartsWith req.path "/static/" = true ∨ req.path = "/manifest.webmanifest" then
    let p := staleWhileRevalidate net cs req.path
    some (some p.1, p.2)
  else
    some (networkFirst net cs req.path)

/- ## The activate listener (service-worker.js lines 24-34)

caches.keys() is enumerated, every name differing from both current
partition names is deleted.  clients.claim() does not touch the caches. -/

/-- caches.delete(name). -/
def deleteCache (cs : CacheMap) (name : String) : CacheMap :=
  cs.filter (fun p => p.1 != name)

def activateCaches (cs : CacheMap) : CacheMap :=
  (((cs.map Prod.fst).filter
      (fun n => n != STATIC_CACHE && n != RUNTIME_CACHE))).foldl deleteCache cs

/- ## POS client data layer (src/static/script.js) -/

/-- A catalog product record as delivered by /api/products/lazy.  The data
layer treats products opaquely (renders them and counts them); the fields
here are the ones the catalog JSON carries. -/
structure Product where
  id : String
  name : String
  category : String
  price : ℚ
deriving DecidableEq

/-- A cart line item as delivered by the cart API. -/
structure CartItem where
  product_id : String
  name : String
  unit_price : ℚ
  quantity : Nat
  total_price : ℚ
deriving DecidableEq

/-- The POSSystem instance state relevant to the data layer: in-memory
cart and product list, pagination cursor, filter, in-flight flag, page
size, the two localStorage keys (cached_products and cart), the
notification toasts shown so far, and the catalog load-status line. -/
structure PosState where
  cart : List CartItem
  products : List Product
  catalogTotalCount : Nat
  currentQuery : String
  currentCategory : String
  nextOffset : Nat
  hasMoreProducts : Bool
  isFetchingProducts : Bool
  productPageSize : Nat
  storedProducts : Option (List Product)
  storedCart : Option (List CartItem)
  notifications : List (String × String)
  loadStatus : Option (String × String)
deriving DecidableEq

/-- The query-string parameters of one /api/products/lazy request
(script.js lines 827-836). -/
structure FetchParams where
  offset : Nat
  limit : Nat
  q : Option String
  category : Option String
deriving DecidableEq

/-- offset and limit always sent; q only for a nonempty trimmed query;
category only when truthy and not "all". -/
def buildParams (st : PosState) : FetchParams :=
  { offset := st.nextOffset
    limit := st.productPageSize
    q := if st.currentQuery.trim = "" then none else some st.currentQuery.trim
    category :=
      if st.currentCategory ≠ "" ∧ st.currentCategory ≠ "all" then
        some st.currentCategory
      else none }

/- ## loadProducts (script.js lines 800-887)

The async method is split at its await boundary: loadProductsStart covers
everything before the fetch resolves (the in-flight guard, the exhausted
guard, flag setting, the reset of the cursor, and building the request
parameters); loadProductsFinish covers the try-success / catch / finally
part once the fetch has settled.  showLoading, renderProducts,
updateProductsTitle and the grid clearing are DOM-only and carry no data
state. -/

def loadProductsStart (reset : Bool) (st : PosState) :
    PosState × Option FetchParams :=
  if st.isFetchingProducts then (st, none)
  else if ¬reset ∧ st.hasMoreProducts = false then (st, none)
  else
    let st1 := { st with isFetchingProducts := true }
    let st2 :=
      if reset then
        { st1 with nextOffset := 0, hasMoreProducts := true, products := [],
                   loadStatus := some ("Loading products...", "loading") }
      else
        { st1 with loadStatus := some ("Loading more products...", "loading") }
    (st2, some (buildParams st2))

/-- A successfully decoded /api/products/lazy payload: response.ok held and
payload.items was an array.  total and has_more are the server-declared
fields after the Number(x) || 0 and Boolean(x) coercions. -/
structure LazyOk where
  items : List Product
  total : Nat
  has_more : Bool
deriving DecidableEq

/-- Outcome of the awaited catalog fetch: a decoded payload, or anything
that lands in the catch block (rejected fetch, non-ok status, items not an
array). -/
inductive LoadResult where
  | ok (payload : LazyOk)
  | err
deriving DecidableEq

def loadProductsFinish (reset : Bool) (res : LoadResult) (st : PosState) :
    PosState :=
  match res with
  | .ok payload =>
      let newProducts := if reset then payload.items else st.products ++ payload.items
      let st1 :=
        { st with
            catalogTotalCount := payload.total
            hasMoreProducts := payload.has_more
            nextOffset := st.nextOffset + payload.items.length
            products := newProducts
            storedProducts := some newProducts }
      let status :=
        if st1.hasMoreProducts then
          ("Showing " ++ toString st1.products.length ++ " of "
            ++ toString st1.catalogTotalCount ++ " products", "ready")
        else if st1.products.length = 0 then
          ("No products found", "empty")
        else
          ("Loaded all " ++ toString st1.products.length ++ " products", "done")
      { st1 with loadStatus := some status, isFetchingProducts := false }
  | .err =>
      let st1 :=
        if reset then
          match st.storedProducts with
          | some cached =>
              { st with
                  products := cached
                  catalogTotalCount := cached.length
                  hasMoreProducts := false
                  loadStatus := some ("Loaded cached products (offline)", "warning") }
          | none =>
              { st with
                  notifications :=
                    st.notifications ++ [("Failed to load products", "error")]
                  loadStatus := some ("Unable to load products", "error") }
        else
          { st with
              hasMoreProducts := false
              loadStatus :=
                some ("Could not load more products. Try search again.", "error") }
      { st1 with isFetchingProducts := false }

/-- A sequence of incremental (reset = false) load attempts, each driven by
the next server payload; a guarded-out attempt issues no request and
consumes nothing.  Returns the final state and the requests issued. -/
def runLoads : PosState → List LazyOk → PosState × List FetchParams
  | st, [] => (st, [])
  | st, r :: rs =>
      match loadProductsStart false st with
      | (st1, none) => runLoads st1 rs
      | (st1, some p) =>
          let st2 := loadProductsFinish false (.ok r) st1
          let rec2 := runLoads st2 rs
          (rec2.1, p :: rec2.2)

/-- The offsets a chain of loads requests: each load asks at the running
base, which then advances by that load response item count. -/
def reqOffsets : Nat → List Nat → List Nat
  | _, [] => []
  | base, n :: ns => base :: reqOffsets (base + n) ns

/-- The loads of the chain all fire: pagination is not exhausted at entry to
any of them (each payload before the last reports has_more = true). -/
def chainOk : Bool → List LazyOk → Prop
  | _, [] => True
  | b, r :: rs => b = true ∧ chainOk r.has_more rs

/- ## loadCart (script.js lines 909-922)

GET /api/cart; an ok response replaces the in-memory cart with its body; a
non-ok response changes nothing; a rejected fetch falls back to the
localStorage cart snapshot when one exists. -/

inductive CartFetch where
  | ok (c : List CartItem)
  | notOk
  | netErr
deriving DecidableEq

def loadCart (res : CartFetch) (st : PosState) : PosState :=
  match res with
  | .ok c => { st with cart := c }
  | .notOk => st
  | .netErr =>
      match st.storedCart with
      | some c => { st with cart := c }
      | none => st

/-- The decoded JSON body and status flag of a cart-mutation POST
response. -/
structure MutResponse where
  respOk : Bool
  success : Bool
  cart : Option (List CartItem)
  message : Option String
deriving DecidableEq

/-- The JavaScript pattern result.message || fallback: empty and missing
messages are both falsy. -/
def jsOr : Option String → String → String
  | some m, d => if m = "" then d else m
  | none, d => d

/- ## Cart mutation handlers (script.js lines 1174-1393)

Each models the part of the async method after its POST response settled,
as a function of the decoded response; the second component records whether
a GET /api/cart re-fetch (this.loadCart()) was issued.  server is the
outcome that re-fetch would have.  updateCartCount and renderCart are
DOM-only. -/

/-- addToCart (lines 1174-1222): checks only result.success. -/
def addToCartFinish (qty : Nat) (result : MutResponse) (server : CartFetch)
    (st : PosState) : PosState × Bool :=
  if result.success then
    let adopted :=
      match result.cart with
      | some c => ({ st with cart := c }, false)
      | none => (loadCart server st, true)
    let st1 := adopted.1
    ({ st1 with
        storedCart := some st1.cart
        notifications :=
          st1.notifications
            ++ [("Added " ++ toString qty ++ " item(s) to cart!", "success")] },
     adopted.2)
  else
    ({ st with
        notifications :=
          st.notifications ++ [(result.message.getD "undefined", "error")] },
     false)

/-- updateCartQuantity (lines 1301-1337), after the positive-quantity
dispatch: rejects when response not ok or not success. -/
def updateCartFinish (result : MutResponse) (server : CartFetch)
    (st : PosState) : PosState × Bool :=
  if result.respOk = false ∨ result.success = false then
    ({ st with
        notifications :=
          st.notifications ++ [(jsOr result.message "Failed to update cart", "error")] },
     false)
  else
    let adopted :=
      match result.cart with
      | some c => ({ st with cart := c }, false)
      | none => (loadCart server st, true)
    let st1 := adopted.1
    ({ st1 with storedCart := some st1.cart }, adopted.2)

/-- removeFromCart (lines 1339-1370). -/
def removeFromCartFinish (result : MutResponse) (server : CartFetch)
    (st : PosState) : PosState × Bool :=
  if result.respOk = false ∨ result.success = false then
    ({ st with
        notifications :=
          st.notifications ++ [(jsOr result.message "Failed to remove item", "error")] },
     false)
  else
    let adopted :=
      match result.cart with
      | some c => ({ st with cart := c }, false)
      | none => (loadCart server st, true)
    let st1 := adopted.1
    ({ st1 with
        storedCart := some st1.cart
        notifications := st1.notifications ++ [("Item removed from cart", "success")] },
     adopted.2)

/-- clearCart (lines 1372-1393): adopts result.cart when it is an array and
the empty cart otherwise; it never issues a re-fetch. -/
def clearCartFinish (result : MutResponse) (st : PosState) :
    PosState × Bool :=
  if result.respOk = false ∨ result.success = false then
    ({ st with
        notifications :=
          st.notifications ++ [(jsOr result.message "Failed to clear cart", "error")] },
     false)
  else
    let st1 := { st with cart := result.cart.getD [] }
    ({ st1 with
        storedCart := some st1.cart
        notifications := st1.notifications ++ [("Cart cleared", "success")] },
     false)

/- ## Checkout totals (script.js lines 761-798 and 1395-1417) -/

/-- What the change line under the amount-received field displays. -/
inductive ChangeDisplay where
  | hidden
  | change (amount : ℚ)
  | remaining (amount : ℚ)
deriving DecidableEq

/-- updateTotals (lines 767-793): the displayed final total and the change
line, from the parsed subtotal, discount, delivery fee and amount
received. -/
def updateTotals (subtotal discount delivery received : ℚ) :
    ℚ × ChangeDisplay :=
  let finalTotal := max 0 (subtotal - discount + delivery)
  let change := received - finalTotal
  (finalTotal,
    if received > 0 then
      if change ≥ 0 then ChangeDisplay.change change
      else ChangeDisplay.remaining |change|
    else ChangeDisplay.hidden)

/-- The parsed checkout form fields (parseFloat(x) || 0 already applied;
subtotal is read back from the checkout-subtotal display). -/
structure CheckoutForm where
  customerName : String
  customerPhone : String
  customerAddress : String
  discountAmount : ℚ
  deliveryFee : ℚ
  printSize : String
  paymentMethod : String
  amountReceived : ℚ
  subtotal : ℚ
deriving DecidableEq

/-- The JSON body POSTed to /api/checkout. -/
structure CheckoutRequest where
  customer_name : String
  customer_phone : String
  customer_address : String
  discount_amount : ℚ
  delivery_fee : ℚ
  payment_method : String
  amount_received : ℚ
deriving DecidableEq

/-- checkout (lines 1395-1417) up to the fetch: the empty-cart guard, the
client-side final total, and the cash under-payment guard.  none in the
second component means no network request was issued. -/
def checkoutStart (form : CheckoutForm) (st : PosState) :
    PosState × Option CheckoutRequest :=
  if st.cart.length = 0 then
    ({ st with notifications := st.notifications ++ [("Cart is empty", "error")] },
     none)
  else
    let finalTotal := max 0 (form.subtotal - form.discountAmount + form.deliveryFee)
    if form.paymentMethod = "Cash" ∧ form.amountReceived < finalTotal then
      ({ st with
          notifications :=
            st.notifications ++ [("Amount received is less than total", "error")] },
       none)
    else
      (st,
       some
         { customer_name := form.customerName
           customer_phone := form.customerPhone
           customer_address := form.customerAddress
           discount_amount := form.discountAmount
           delivery_fee := form.deliveryFee
           payment_method := form.paymentMethod
           amount_received := form.amountReceived })

/- ## escapeHtml (script.js lines 47-54)

String(value) followed by five global single-character replaces, in this
order: ampersand, then angle brackets, then the two quote characters.  A
global replace of one character by a string over a JS string is exactly a
per-character expansion, so each pass is modelled on the character list.
The double quote is Char.ofNat 34 and the single quote Char.ofNat 39. -/

/-- One value.replace(/c/g, r) pass. -/
def repl (t : Char) (r : List Char) : List Char → List Char
  | [] => []
  | c :: s => (if c = t then r else [c]) ++ repl t r s

def ampEnt : List Char := ['&', 'a', 'm', 'p', ';']

def ltEnt : List Char := ['&', 'l', 't', ';']

def gtEnt : List Char := ['&', 'g', 't', ';']

def quotEnt : List Char := ['&', 'q', 'u', 'o', 't', ';']

def num39Ent : List Char := ['&', '#', '3', '9', ';']

def escapeHtml (s : List Char) : List Char :=
  repl (Char.ofNat 39) num39Ent
    (repl (Char.ofNat 34) quotEnt
      (repl '>' gtEnt
        (repl '<' ltEnt
          (repl '&' ampEnt s))))

/-- The characters that, raw, could open markup or break out of an
attribute. -/
def forbiddenChars : List Char := ['<', '>', Char.ofNat 34, Char.ofNat 39]

/-- The five entities escapeHtml emits. -/
def htmlEntities : List (List Char) := [ampEnt, ltEnt, gtEnt, quotEnt, num39Ent]

/-- Every ampersand in the list begins one of the five entities. -/
def ampOk : List Char → Bool
  | [] => true
  | c :: rest =>
      ((c != '&') || htmlEntities.any (fun e => e.isPrefixOf (c :: rest)))
        && ampOk rest

/-- What the whole pipeline does to one input character. -/
def escChar (c : Char) : List Char :=
  if c = '&' then ampEnt
  else if c = '<' then ltEnt
  else if c = '>' then gtEnt
  else if c = Char.ofNat 34 then quotEnt
  else if c = Char.ofNat 39 then num39Ent
  else [c]

/- ## Theorems -/

/-- Claim C3: whenever a catalog load is outstanding (isFetchingProducts is
set), any further loadProducts call - reset or incremental - returns
immediately: no request parameters are produced and the state, including
products, cursor, filter, flags, snapshots, notifications and status line,
is exactly unchanged. -/
theorem c3_inflight_noop (reset : Bool) (st : PosState)
    (h : st.isFetchingProducts = true) :
    loadProductsStart reset st = (st, none) := by
  simp [loadProductsStart, h]

theorem c3_inflight_noop_witness :
    (PosState.mk [] [] 0 "" "all" 8 true true 8 none none [] none).isFetchingProducts
        = true
      ∧ loadProductsStart true
          (PosState.mk [] [] 0 "" "all" 8 true true 8 none none [] none)
        = (PosState.mk [] [] 0 "" "all" 8 true true 8 none none [] none, none) :=
  ⟨rfl, c3_inflight_noop true _ rfl⟩

/-- Claim C9: when a reset-mode catalog load fails with a localStorage
snapshot present, the snapshot becomes the whole product list, the total
count becomes its length and pagination is marked exhausted; with no
snapshot, an error notification and error status line are surfaced
instead. -/
theorem c9_reset_failure (st : PosState) :
    (∀ cached, st.storedProducts = some cached →
        loadProductsFinish true .err st =
          { st with
              products := cached
              catalogTotalCount := cached.length
              hasMoreProducts := false
              loadStatus := some ("Loaded cached products (offline)", "warning")
              isFetchingProducts := false })
      ∧ (st.storedProducts = none →
        loadProductsFinish true .err st =
          { st with
              notifications :=
                st.notifications ++ [("Failed to load products", "error")]
              loadStatus := some ("Unable to load products", "error")
              isFetchingProducts := false }) := by
  constructor
  · intro cached hc
    simp [loadProductsFinish, hc]
  · intro hc
    simp [loadProductsFinish, hc]

theorem c9_reset_failure_witness :
    (PosState.mk [] [] 0 "" "all" 0 true true 8
        (some [Product.mk "p1" "Serum" "Skincare" 12]) none [] none).storedProducts
      = some [Product.mk "p1" "Serum" "Skincare" 12]
      ∧ loadProductsFinish true .err
          (PosState.mk [] [] 0 "" "all" 0 true true 8
            (some [Product.mk "p1" "Serum" "Skincare" 12]) none [] none)
        = { PosState.mk [] [] 0 "" "all" 0 true true 8
              (some [Product.mk "p1" "Serum" "Skincare" 12]) none [] none with
            products := [Product.mk "p1" "Serum" "Skincare" 12]
            catalogTotalCount := [Product.mk "p1" "Serum" "Skincare" 12].length
            hasMoreProducts := false
            loadStatus := some ("Loaded cached products (offline)", "warning")
            isFetchingProducts := false } :=
  ⟨rfl,
   (c9_reset_failure
      (PosState.mk [] [] 0 "" "all" 0 true true 8
        (some [Product.mk "p1" "Serum" "Skincare" 12]) none [] none)).1
     [Product.mk "p1" "Serum" "Skincare" 12] rfl⟩

/-- Claim C1: a same-origin navigation-mode GET request whose fetch rejects
is answered with the first available of: any cached copy of the exact
request, the cached site root "/", the cached offline page, and finally the
synthetic network-error response; in particular a cached copy of the exact
page wins over the root and offline entries. -/
theorem c1_navigation_fallback (req : Request) (cs : CacheMap)
    (hget : req.method = "GET") (horigin : req.sameOrigin = true)
    (hmode : req.mode = "navigate") :
    handleFetch req .fail cs =
        some (some ((((matchAll cs req.path).orElse
            (fun _ => matchAll cs "/")).orElse
            (fun _ => matchAll cs OFFLINE_URL)).getD Response.netError), cs)
      ∧ ∀ p, matchAll cs req.path = some p →
          handleFetch req .fail cs = some (some p, cs) := by
  have hnav : handleFetch req .fail cs =
      some (some (navigationHandler .fail cs req.path).1,
            (navigationHandler .fail cs req.path).2) := by
    simp [handleFetch, hget, horigin, hmode]
  constructor
  · rw [hnav]
    cases h1 : matchAll cs req.path with
    | some p => simp [navigationHandler, h1, Option.orElse]
    | none =>
      cases h2 : matchAll cs "/" with
      | some h => simp [navigationHandler, h1, h2, Option.orElse]
      | none =>
        cases h3 : matchAll cs OFFLINE_URL with
        | some o => simp [navigationHandler, h1, h2, h3, Option.orElse]
        | none => simp [navigationHandler, h1, h2, h3, Option.orElse]
  · intro p hp
    rw [hnav]
    simp [navigationHandler, hp]

theorem c1_navigation_fallback_witness :
    (Request.mk "GET" true "navigate" "/page").method = "GET"
      ∧ (Request.mk "GET" true "navigate" "/page").sameOrigin = true
      ∧ (Request.mk "GET" true "navigate" "/page").mode = "navigate"
      ∧ matchAll
          [(STATIC_CACHE, [("/", Response.mk 200 "home" false none),
                           (OFFLINE_URL, Response.mk 200 "offline" false none)]),
           (RUNTIME_CACHE, [("/page", Response.mk 200 "page" false none)])]
          (Request.mk "GET" true "navigate" "/page").path
        = some (Response.mk 200 "page" false none)
      ∧ handleFetch (Request.mk "GET" true "navigate" "/page") .fail
          [(STATIC_CACHE, [("/", Response.mk 200 "home" false none),
                           (OFFLINE_URL, Response.mk 200 "offline" false none)]),
           (RUNTIME_CACHE, [("/page", Response.mk 200 "page" false none)])]
        = some (some (Response.mk 200 "page" false none),
                [(STATIC_CACHE, [("/", Response.mk 200 "home" false none),
                                 (OFFLINE_URL, Response.mk 200 "offline" false none)]),
                 (RUNTIME_CACHE, [("/page", Response.mk 200 "page" false none)])]) :=
  ⟨rfl, rfl, rfl, by decide,
   (c1_navigation_fallback (Request.mk "GET" true "navigate" "/page")
      [(STATIC_CACHE, [("/", Response.mk 200 "home" false none),
                       (OFFLINE_URL, Response.mk 200 "offline" false none)]),
       (RUNTIME_CACHE, [("/page", Response.mk 200 "page" false none)])]
      rfl rfl rfl).2
     (Response.mk 200 "page" false none) (by decide)⟩

/-- Claim C5: a response that is not status 200 with a non-error type is
never written to any cache partition by any of the three strategies:
cacheSuccessResponse passes it through untouched, and
staleWhileRevalidate, networkFirst and navigationHandler leave the whole
cache state unchanged while still handing the response (or the cached copy,
for stale-while-revalidate) to the caller. -/
theorem c5_cache_write_guard (name url : String) (r : Response) (cs : CacheMap)
    (h : ¬(r.status = 200 ∧ r.isError = false)) :
    cacheSuccessResponse name url r cs = (r, cs)
      ∧ (staleWhileRevalidate (.ok r) cs url).2 = cs
      ∧ networkFirst (.ok r) cs url = (some r, cs)
      ∧ navigationHandler (.ok r) cs url = (r, cs) := by
  have hg : r.status ≠ 200 ∨ r.isError = true := by
    by_cases h1 : r.status = 200
    · right
      cases hb : r.isError with
      | false => exact absurd ⟨h1, hb⟩ h
      | true => rfl
    · left
      exact h1
  have hc : ∀ n u, cacheSuccessResponse n u r cs = (r, cs) := by
    intro n u
    simp [cacheSuccessResponse, if_pos hg]
  refine ⟨hc name url, ?_, ?_, ?_⟩
  · cases hl : cacheLookup cs STATIC_CACHE url with
    | some c => simp [staleWhileRevalidate, hl, hc]
    | none => simp [staleWhileRevalidate, hl, hc]
  · simp [networkFirst, hc]
  · simp [navigationHandler, hc]

theorem c5_cache_write_guard_witness :
    ¬((Response.mk 503 "oops" false none).status = 200
        ∧ (Response.mk 503 "oops" false none).isError = false)
      ∧ (cacheSuccessResponse RUNTIME_CACHE "/x" (Response.mk 503 "oops" false none) []
          = (Response.mk 503 "oops" false none, [])
        ∧ (staleWhileRevalidate (.ok (Response.mk 503 "oops" false none)) [] "/x").2 = []
        ∧ networkFirst (.ok (Response.mk 503 "oops" false none)) [] "/x"
            = (some (Response.mk 503 "oops" false none), [])
        ∧ navigationHandler (.ok (Response.mk 503 "oops" false none)) [] "/x"
            = (Response.mk 503 "oops" false none, [])) :=
  ⟨by decide,
   c5_cache_write_guard RUNTIME_CACHE "/x" (Response.mk 503 "oops" false none) []
     (by decide)⟩

/-- Folding caches.delete over a list of names removes exactly the caches
with those names. -/
theorem foldl_deleteCache (ns : List String) :
    ∀ cs : CacheMap,
      ns.foldl deleteCache cs = cs.filter (fun p => !(ns.contains p.1)) := by
  induction ns with
  | nil =>
    intro cs
    simp
  | cons n ns ih =>
    intro cs
    rw [List.foldl_cons, ih]
    simp only [deleteCache, List.filter_filter, List.contains_cons]
    apply List.filter_congr
    intro p _
    cases h1 : p.1 == n <;> simp [bne, h1]

/-- Claim C6: after the activate step, the cache storage holds exactly the
partitions (with their entries untouched) whose name is the current static
or runtime partition name; every other partition has been deleted. -/
theorem c6_activate_cleanup (cs : CacheMap) :
    activateCaches cs
      = cs.filter (fun p => p.1 == STATIC_CACHE || p.1 == RUNTIME_CACHE) := by
  unfold activateCaches
  rw [foldl_deleteCache]
  apply List.filter_congr
  intro p hp
  by_cases h : p.1 = STATIC_CACHE ∨ p.1 = RUNTIME_CACHE
  · have hnot :
        p.1 ∉ (cs.map Prod.fst).filter
          (fun n => n != STATIC_CACHE && n != RUNTIME_CACHE) := by
      intro hmem
      rcases List.mem_filter.mp hmem with ⟨-, hcond⟩
      rcases h with h | h <;> simp [h] at hcond
    have hc :
        ((cs.map Prod.fst).filter
          (fun n => n != STATIC_CACHE && n != RUNTIME_CACHE)).contains p.1
          = false := by
      cases hcc : ((cs.map Prod.fst).filter
          (fun n => n != STATIC_CACHE && n != RUNTIME_CACHE)).contains p.1 with
      | false => rfl
      | true =>
        obtain ⟨x, hx, hbeq⟩ := List.contains_iff_exists_mem_beq.mp hcc
        exact absurd (by rwa [eq_of_beq hbeq] : p.1 ∈ _) hnot
    rw [hc]
    rcases h with h | h <;> simp [h]
  · push_neg at h
    have hmem :
        p.1 ∈ (cs.map Prod.fst).filter
          (fun n => n != STATIC_CACHE && n != RUNTIME_CACHE) := by
      apply List.mem_filter.mpr
      refine ⟨List.mem_map_of_mem Prod.fst hp, ?_⟩
      simp [bne, h.1, h.2]
    have hc :
        ((cs.map Prod.fst).filter
          (fun n => n != STATIC_CACHE && n != RUNTIME_CACHE)).contains p.1
          = true :=
      List.contains_iff_exists_mem_beq.mpr ⟨p.1, hmem, by simp⟩
    rw [hc]
    simp [h.1, h.2]

/-- Claim C4, counterexample: a same-origin GET request for the path
/api/cart issued in navigation mode (a direct browser navigation to the
endpoint) is classified as a navigation before the /api/ branch is reached,
so when its fetch rejects the handler serves the cached runtime copy - a
status-200 response - instead of the synthesized 503 JSON error the claim
requires for every /api/ GET. -/
theorem c4_api_counterexample :
    handleFetch (Request.mk "GET" true "navigate" "/api/cart") .fail
        [(RUNTIME_CACHE, [("/api/cart", Response.mk 200 "cached-cart" false none)])]
      = some (some (Response.mk 200 "cached-cart" false none),
          [(RUNTIME_CACHE, [("/api/cart", Response.mk 200 "cached-cart" false none)])])
      ∧ (Response.mk 200 "cached-cart" false none).status ≠ 503
      ∧ (offlineJsonResponse "You are offline right now.").status = 503 := by
  refine ⟨by decide, by decide, by decide⟩

/-- Claim C4 as amended: for every same-origin non-navigation GET request
whose path starts with /api/, the proxy answers with the network result
alone - the cache state is untouched and the response does not depend on
it - and when the fetch rejects the answer is the synthesized 503 response
with the offline JSON body. -/
theorem c4_api_direct (req : Request) (net : NetResult) (cs : CacheMap)
    (hget : req.method = "GET") (horigin : req.sameOrigin = true)
    (hmode : req.mode ≠ "navigate")
    (hpath : strStartsWith req.path "/api/" = true) :
    handleFetch req net cs = some (some (apiFetch net), cs)
      ∧ (apiFetch .fail).status = 503
      ∧ (apiFetch .fail).body
          = "\x7b\"success\":false,\"message\":\"You are offline right now.\"\x7d"
      ∧ (∀ r, apiFetch (.ok r) = r) := by
  refine ⟨?_, by decide, by decide, fun r => rfl⟩
  simp [handleFetch, hget, horigin, hmode, hpath]

theorem c4_api_direct_witness :
    (Request.mk "GET" true "cors" "/api/products/lazy").method = "GET"
      ∧ (Request.mk "GET" true "cors" "/api/products/lazy").sameOrigin = true
      ∧ (Request.mk "GET" true "cors" "/api/products/lazy").mode ≠ "navigate"
      ∧ strStartsWith (Request.mk "GET" true "cors" "/api/products/lazy").path "/api/"
          = true
      ∧ handleFetch (Request.mk "GET" true "cors" "/api/products/lazy") .fail
          [(RUNTIME_CACHE, [("/api/products/lazy", Response.mk 200 "stale" false none)])]
        = some (some (apiFetch .fail),
            [(RUNTIME_CACHE,
              [("/api/products/lazy", Response.mk 200 "stale" false none)])]) :=
  ⟨rfl, rfl, by decide, by decide,
   (c4_api_direct (Request.mk "GET" true "cors" "/api/products/lazy") .fail
      [(RUNTIME_CACHE, [("/api/products/lazy", Response.mk 200 "stale" false none)])]
      rfl rfl (by decide) (by decide)).1⟩

/-- Claim C7: the displayed checkout total is max(0, subtotal - discount +
delivery), and a Cash checkout whose amount received is strictly below that
total is rejected before any network request: the only state change is the
error notification, and no checkout request body is produced. -/
theorem c7_checkout_guard (subtotal discount delivery received : ℚ)
    (form : CheckoutForm) (st : PosState)
    (hcart : st.cart ≠ [])
    (hpm : form.paymentMethod = "Cash")
    (hlt : form.amountReceived
        < max 0 (form.subtotal - form.discountAmount + form.deliveryFee)) :
    (updateTotals subtotal discount delivery received).1
        = max 0 (subtotal - discount + delivery)
      ∧ checkoutStart form st
        = ({ st with
              notifications :=
                st.notifications
                  ++ [("Amount received is less than total", "error")] },
           none) := by
  have h0 : ¬st.cart.length = 0 := by simpa using hcart
  exact ⟨rfl, by simp [checkoutStart, h0, hpm, hlt]⟩

theorem c7_checkout_guard_witness :
    (PosState.mk [CartItem.mk "p1" "Serum" 25 2 50] [] 0 "" "all" 0 true false 8
        none none [] none).cart ≠ []
      ∧ (CheckoutForm.mk "Walk-in Customer" "" "" 5 3 "80mm" "Cash" 40 50).paymentMethod
          = "Cash"
      ∧ (CheckoutForm.mk "Walk-in Customer" "" "" 5 3 "80mm" "Cash" 40 50).amountReceived
          < max 0 ((CheckoutForm.mk "Walk-in Customer" "" "" 5 3 "80mm" "Cash" 40 50).subtotal
              - (CheckoutForm.mk "Walk-in Customer" "" "" 5 3 "80mm" "Cash" 40 50).discountAmount
              + (CheckoutForm.mk "Walk-in Customer" "" "" 5 3 "80mm" "Cash" 40 50).deliveryFee)
      ∧ ((updateTotals 50 5 3 40).1 = max 0 ((50 : ℚ) - 5 + 3)
        ∧ checkoutStart (CheckoutForm.mk "Walk-in Customer" "" "" 5 3 "80mm" "Cash" 40 50)
            (PosState.mk [CartItem.mk "p1" "Serum" 25 2 50] [] 0 "" "all" 0 true false 8
              none none [] none)
          = ({ PosState.mk [CartItem.mk "p1" "Serum" 25 2 50] [] 0 "" "all" 0 true false 8
                none none [] none with
              notifications :=
                (PosState.mk [CartItem.mk "p1" "Serum" 25 2 50] [] 0 "" "all" 0 true false 8
                  none none [] none).notifications
                  ++ [("Amount received is less than total", "error")] },
             none)) :=
  ⟨by decide, rfl, by show (40 : ℚ) < max 0 (50 - 5 + 3); norm_num,
   c7_checkout_guard 50 5 3 40
     (CheckoutForm.mk "Walk-in Customer" "" "" 5 3 "80mm" "Cash" 40 50)
     (PosState.mk [CartItem.mk "p1" "Serum" 25 2 50] [] 0 "" "all" 0 true false 8
       none none [] none)
     (by decide) rfl (by show (40 : ℚ) < max 0 (50 - 5 + 3); norm_num)⟩

/-- Claim C8, counterexample: a successful clear-cart response that carries
no cart array does not make the client re-fetch the cart (no GET /api/cart
is issued); the client adopts the empty cart locally instead, so the claim
that every successful mutation without a cart array triggers a re-fetch is
false for clear. -/
theorem c8_cart_counterexample :
    (clearCartFinish (MutResponse.mk true true none none)
        (PosState.mk [CartItem.mk "p1" "Serum" 25 2 50] [] 0 "" "all" 0 true false 8
          none none [] none)).2 = false
      ∧ (clearCartFinish (MutResponse.mk true true none none)
          (PosState.mk [CartItem.mk "p1" "Serum" 25 2 50] [] 0 "" "all" 0 true false 8
            none none [] none)).1.cart = [] := by
  refine ⟨by decide, by decide⟩

/-- Claim C8 as amended: on a success response, add, update and remove
adopt the carried cart array directly (no re-fetch) when it is present and
re-fetch the cart from the server when it is absent; clear adopts the
carried array when present and otherwise adopts the empty cart, never
re-fetching; in every case the resulting cart is then mirrored to the
localStorage cart key. -/
theorem c8_cart_sync (qty : Nat) (result : MutResponse) (server : CartFetch)
    (st : PosState)
    (hok : result.respOk = true) (hs : result.success = true) :
    (∀ c, result.cart = some c →
        ((addToCartFinish qty result server st).1.cart = c
          ∧ (addToCartFinish qty result server st).2 = false
          ∧ (updateCartFinish result server st).1.cart = c
          ∧ (updateCartFinish result server st).2 = false
          ∧ (removeFromCartFinish result server st).1.cart = c
          ∧ (removeFromCartFinish result server st).2 = false
          ∧ (clearCartFinish result st).1.cart = c
          ∧ (clearCartFinish result st).2 = false))
      ∧ (result.cart = none →
        ((addToCartFinish qty result server st).2 = true
          ∧ (updateCartFinish result server st).2 = true
          ∧ (removeFromCartFinish result server st).2 = true
          ∧ (clearCartFinish result st).1.cart = []
          ∧ (clearCartFinish result st).2 = false))
      ∧ (addToCartFinish qty result server st).1.storedCart
          = some (addToCartFinish qty result server st).1.cart
      ∧ (updateCartFinish result server st).1.storedCart
          = some (updateCartFinish result server st).1.cart
      ∧ (removeFromCartFinish result server st).1.storedCart
          = some (removeFromCartFinish result server st).1.cart
      ∧ (clearCartFinish result st).1.storedCart
          = some (clearCartFinish result st).1.cart := by
  have hmirror : ∀ (stx : PosState),
      (addToCartFinish qty result server stx).1.storedCart
          = some (addToCartFinish qty result server stx).1.cart
        ∧ (updateCartFinish result server stx).1.storedCart
          = some (updateCartFinish result server stx).1.cart
        ∧ (removeFromCartFinish result server stx).1.storedCart
          = some (removeFromCartFinish result server stx).1.cart
        ∧ (clearCartFinish result stx).1.storedCart
          = some (clearCartFinish result stx).1.cart := by
    intro stx
    cases hc : result.cart with
    | some c =>
      simp [addToCartFinish, updateCartFinish, removeFromCartFinish,
            clearCartFinish, hok, hs, hc]
    | none =>
      cases server with
      | ok c =>
        simp [addToCartFinish, updateCartFinish, removeFromCartFinish,
              clearCartFinish, loadCart, hok, hs, hc]
      | notOk =>
        simp [addToCartFinish, updateCartFinish, removeFromCartFinish,
              clearCartFinish, loadCart, hok, hs, hc]
      | netErr =>
        cases hsc : stx.storedCart with
        | some c =>
          simp [addToCartFinish, updateCartFinish, removeFromCartFinish,
                clearCartFinish, loadCart, hok, hs, hc, hsc]
        | none =>
          simp [addToCartFinish, updateCartFinish, removeFromCartFinish,
                clearCartFinish, loadCart, hok, hs, hc, hsc]
  refine ⟨?_, ?_, hmirror st⟩
  · intro c hc
    simp [addToCartFinish, updateCartFinish, removeFromCartFinish,
          clearCartFinish, hok, hs, hc]
  · intro hc
    simp [addToCartFinish, updateCartFinish, removeFromCartFinish,
          clearCartFinish, hok, hs, hc]

theorem c8_cart_sync_witness :
    (MutResponse.mk true true (some [CartItem.mk "p2" "Toner" 9 1 9]) none).respOk = true
      ∧ (MutResponse.mk true true (some [CartItem.mk "p2" "Toner" 9 1 9]) none).success
          = true
      ∧ (MutResponse.mk true true (some [CartItem.mk "p2" "Toner" 9 1 9]) none).cart
          = some [CartItem.mk "p2" "Toner" 9 1 9]
      ∧ ((addToCartFinish 1
            (MutResponse.mk true true (some [CartItem.mk "p2" "Toner" 9 1 9]) none)
            (CartFetch.ok [])
            (PosState.mk [] [] 0 "" "all" 0 true false 8 none none [] none)).1.cart
          = [CartItem.mk "p2" "Toner" 9 1 9]
        ∧ (addToCartFinish 1
            (MutResponse.mk true true (some [CartItem.mk "p2" "Toner" 9 1 9]) none)
            (CartFetch.ok [])
            (PosState.mk [] [] 0 "" "all" 0 true false 8 none none [] none)).2 = false
        ∧ (updateCartFinish
            (MutResponse.mk true true (some [CartItem.mk "p2" "Toner" 9 1 9]) none)
            (CartFetch.ok [])
            (PosState.mk [] [] 0 "" "all" 0 true false 8 none none [] none)).1.cart
          = [CartItem.mk "p2" "Toner" 9 1 9]
        ∧ (updateCartFinish
            (MutResponse.mk true true (some [CartItem.mk "p2" "Toner" 9 1 9]) none)
            (CartFetch.ok [])
            (PosState.mk [] [] 0 "" "all" 0 true false 8 none none [] none)).2 = false
        ∧ (removeFromCartFinish
            (MutResponse.mk true true (some [CartItem.mk "p2" "Toner" 9 1 9]) none)
            (CartFetch.ok [])
            (PosState.mk [] [] 0 "" "all" 0 true false 8 none none [] none)).1.cart
          = [CartItem.mk "p2" "Toner" 9 1 9]
        ∧ (removeFromCartFinish
            (MutResponse.mk true true (some [CartItem.mk "p2" "Toner" 9 1 9]) none)
            (CartFetch.ok [])
            (PosState.mk [] [] 0 "" "all" 0 true false 8 none none [] none)).2 = false
        ∧ (clearCartFinish
            (MutResponse.mk true true (some [CartItem.mk "p2" "Toner" 9 1 9]) none)
            (PosState.mk [] [] 0 "" "all" 0 true false 8 none none [] none)).1.cart
          = [CartItem.mk "p2" "Toner" 9 1 9]
        ∧ (clearCartFinish
            (MutResponse.mk true true (some [CartItem.mk "p2" "Toner" 9 1 9]) none)
            (PosState.mk [] [] 0 "" "all" 0 true false 8 none none [] none)).2 = false) :=
  ⟨rfl, rfl, rfl,
   (c8_cart_sync 1
      (MutResponse.mk true true (some [CartItem.mk "p2" "Toner" 9 1 9]) none)
      (CartFetch.ok [])
      (PosState.mk [] [] 0 "" "all" 0 true false 8 none none [] none)
      rfl rfl).1
     [CartItem.mk "p2" "Toner" 9 1 9] rfl⟩

/-- Claim C2: across any chain of successful incremental loads under a
fixed filter, nextOffset advances by exactly the item counts the responses
actually carried (never by the requested page size), the in-memory list is
the concatenation of the responses, and the i-th request asks at offset
equal to the starting offset plus the items received so far, always with
limit equal to the page size. -/
theorem c2_pagination (resps : List LazyOk) (st : PosState)
    (hf : st.isFetchingProducts = false)
    (hchain : chainOk st.hasMoreProducts resps) :
    (runLoads st resps).1.nextOffset
        = st.nextOffset + (resps.map (fun r => r.items.length)).sum
      ∧ (runLoads st resps).1.products
        = st.products ++ (resps.map (fun r => r.items)).flatten
      ∧ (runLoads st resps).2.map (fun p => (p.offset, p.limit))
        = (reqOffsets st.nextOffset (resps.map (fun r => r.items.length))).map
            (fun o => (o, st.productPageSize)) := by
  induction resps generalizing st with
  | nil => simp [runLoads, reqOffsets]
  | cons r rs ih =>
    obtain ⟨hm, hchain2⟩ := hchain
    have hstart : loadProductsStart false st =
        ({ st with isFetchingProducts := true,
                   loadStatus := some ("Loading more products...", "loading") },
         some (buildParams
           { st with isFetchingProducts := true,
                     loadStatus := some ("Loading more products...", "loading") })) := by
      simp [loadProductsStart, hf, hm]
    have hB_fetch :
        (loadProductsFinish false (.ok r)
          { st with isFetchingProducts := true,
                    loadStatus := some ("Loading more products...", "loading") }).isFetchingProducts
          = false := by
      simp [loadProductsFinish]
    have hB_more :
        (loadProductsFinish false (.ok r)
          { st with isFetchingProducts := true,
                    loadStatus := some ("Loading more products...", "loading") }).hasMoreProducts
          = r.has_more := by
      simp [loadProductsFinish]
    have hB_off :
        (loadProductsFinish false (.ok r)
          { st with isFetchingProducts := true,
                    loadStatus := some ("Loading more products...", "loading") }).nextOffset
          = st.nextOffset + r.items.length := by
      simp [loadProductsFinish]
    have hB_prod :
        (loadProductsFinish false (.ok r)
          { st with isFetchingProducts := true,
                    loadStatus := some ("Loading more products...", "loading") }).products
          = st.products ++ r.items := by
      simp [loadProductsFinish]
    have hB_ps :
        (loadProductsFinish false (.ok r)
          { st with isFetchingProducts := true,
                    loadStatus := some ("Loading more products...", "loading") }).productPageSize
          = st.productPageSize := by
      simp [loadProductsFinish]
    obtain ⟨ih1, ih2, ih3⟩ :=
      ih (loadProductsFinish false (.ok r)
            { st with isFetchingProducts := true,
                      loadStatus := some ("Loading more products...", "loading") })
        hB_fetch (by rw [hB_more]; exact hchain2)
    refine ⟨?_, ?_, ?_⟩
    · show (runLoads st (r :: rs)).1.nextOffset = _
      rw [runLoads, hstart]
      simp [ih1, hB_off, Nat.add_assoc]
    · show (runLoads st (r :: rs)).1.products = _
      rw [runLoads, hstart]
      simp [ih2, hB_prod, List.append_assoc]
    · show (runLoads st (r :: rs)).2.map _ = _
      rw [runLoads, hstart]
      simp [ih3, hB_off, hB_ps, reqOffsets, buildParams]

theorem c2_pagination_witness :
    (PosState.mk [] [] 0 "" "all" 0 true false 8 none none [] none).isFetchingProducts
        = false
      ∧ chainOk
          (PosState.mk [] [] 0 "" "all" 0 true false 8 none none [] none).hasMoreProducts
          [LazyOk.mk (List.replicate 8 (Product.mk "p" "P" "C" 1)) 42 true,
           LazyOk.mk (List.replicate 8 (Product.mk "p" "P" "C" 1)) 42 false]
      ∧ ((runLoads (PosState.mk [] [] 0 "" "all" 0 true false 8 none none [] none)
            [LazyOk.mk (List.replicate 8 (Product.mk "p" "P" "C" 1)) 42 true,
             LazyOk.mk (List.replicate 8 (Product.mk "p" "P" "C" 1)) 42 false]).1.nextOffset
          = (PosState.mk [] [] 0 "" "all" 0 true false 8 none none [] none).nextOffset
            + ([LazyOk.mk (List.replicate 8 (Product.mk "p" "P" "C" 1)) 42 true,
                LazyOk.mk (List.replicate 8 (Product.mk "p" "P" "C" 1)) 42 false].map
                (fun r => r.items.length)).sum)
      ∧ (runLoads (PosState.mk [] [] 0 "" "all" 0 true false 8 none none [] none)
            [LazyOk.mk (List.replicate 8 (Product.mk "p" "P" "C" 1)) 42 true,
             LazyOk.mk (List.replicate 8 (Product.mk "p" "P" "C" 1)) 42 false]).1.nextOffset
          = 16
      ∧ (runLoads (PosState.mk [] [] 0 "" "all" 0 true false 8 none none [] none)
            [LazyOk.mk (List.replicate 8 (Product.mk "p" "P" "C" 1)) 42 true,
             LazyOk.mk (List.replicate 8 (Product.mk "p" "P" "C" 1)) 42 false]).1.products.length
          = 16
      ∧ (runLoads (PosState.mk [] [] 0 "" "all" 0 true false 8 none none [] none)
            [LazyOk.mk (List.replicate 8 (Product.mk "p" "P" "C" 1)) 42 true,
             LazyOk.mk (List.replicate 8 (Product.mk "p" "P" "C" 1)) 42 false]).2.map
            (fun p => (p.offset, p.limit))
          = [(0, 8), (8, 8)] :=
  ⟨rfl, by exact ⟨rfl, rfl, trivial⟩,
   (c2_pagination
      [LazyOk.mk (List.replicate 8 (Product.mk "p" "P" "C" 1)) 42 true,
       LazyOk.mk (List.replicate 8 (Product.mk "p" "P" "C" 1)) 42 false]
      (PosState.mk [] [] 0 "" "all" 0 true false 8 none none [] none)
      rfl (by exact ⟨rfl, rfl, trivial⟩)).1,
   by decide, by decide, by decide⟩

/-- A single-character global replace distributes over concatenation. -/
theorem repl_append (t : Char) (r a b : List Char) :
    repl t r (a ++ b) = repl t r a ++ repl t r b := by
  induction a with
  | nil => rfl
  | cons x xs ih => simp [repl, ih]

/-- The five sequential replaces act on one input character at a time. -/
theorem escapeHtml_cons (c : Char) (s : List Char) :
    escapeHtml (c :: s) = escChar c ++ escapeHtml s := by
  have key : escapeHtml (c :: s) =
      repl (Char.ofNat 39) num39Ent
        (repl (Char.ofNat 34) quotEnt
          (repl '>' gtEnt
            (repl '<' ltEnt (if c = '&' then ampEnt else [c]))))
        ++ escapeHtml s := by
    show repl (Char.ofNat 39) num39Ent
        (repl (Char.ofNat 34) quotEnt
          (repl '>' gtEnt
            (repl '<' ltEnt
              ((if c = '&' then ampEnt else [c]) ++ repl '&' ampEnt s)))) = _
    rw [repl_append, repl_append, repl_append, repl_append]
    rfl
  rw [key]
  congr 1
  by_cases h1 : c = '&'
  · subst h1
    decide
  · rw [if_neg h1]
    by_cases h2 : c = '<'
    · subst h2
      decide
    · by_cases h3 : c = '>'
      · subst h3
        decide
      · by_cases h4 : c = Char.ofNat 34
        · subst h4
          decide
        · by_cases h5 : c = Char.ofNat 39
          · subst h5
            decide
          · simp [repl, escChar, h1, h2, h3, h4, h5]

/-- No expansion of a single character contains a raw forbidden
character. -/
theorem escChar_mem (x c : Char) (h : c ∈ escChar x) : c ∉ forbiddenChars := by
  unfold escChar at h
  by_cases h1 : x = '&'
  · rw [if_pos h1] at h
    exact (by decide : ∀ y ∈ ampEnt, y ∉ forbiddenChars) c h
  · rw [if_neg h1] at h
    by_cases h2 : x = '<'
    · rw [if_pos h2] at h
      exact (by decide : ∀ y ∈ ltEnt, y ∉ forbiddenChars) c h
    · rw [if_neg h2] at h
      by_cases h3 : x = '>'
      · rw [if_pos h3] at h
        exact (by decide : ∀ y ∈ gtEnt, y ∉ forbiddenChars) c h
      · rw [if_neg h3] at h
        by_cases h4 : x = Char.ofNat 34
        · rw [if_pos h4] at h
          exact (by decide : ∀ y ∈ quotEnt, y ∉ forbiddenChars) c h
        · rw [if_neg h4] at h
          by_cases h5 : x = Char.ofNat 39
          · rw [if_pos h5] at h
            exact (by decide : ∀ y ∈ num39Ent, y ∉ forbiddenChars) c h
          · rw [if_neg h5] at h
            have hx := List.mem_singleton.mp h
            subst hx
            simp [forbiddenChars, h2, h3, h4, h5]

/-- Characters other than the ampersand never open an entity obligation. -/
theorem ampOk_cons_ne (c : Char) (h : (c == '&') = false) (t : List Char) :
    ampOk (c :: t) = ampOk t := by
  simp [ampOk, bne, h]

/-- An ampersand that starts a known entity is accepted. -/
theorem ampOk_cons_entity (c : Char) (rest : List Char)
    (hany : htmlEntities.any (fun e => e.isPrefixOf (c :: rest)) = true)
    (hrest : ampOk rest = true) : ampOk (c :: rest) = true := by
  simp [ampOk, hany, hrest]

/-- A list is a Boolean prefix of itself followed by anything. -/
theorem isPrefixOf_append_self (l t : List Char) :
    l.isPrefixOf (l ++ t) = true := by
  induction l with
  | nil => simp
  | cons a as ih => simp [List.isPrefixOf, ih]

theorem ampOk_ampEnt (t : List Char) (ht : ampOk t = true) :
    ampOk (ampEnt ++ t) = true := by
  show ampOk ('&' :: ('a' :: 'm' :: 'p' :: ';' :: t)) = true
  apply ampOk_cons_entity
  · have hpre := isPrefixOf_append_self ampEnt t
    simp only [htmlEntities, List.any_cons, List.any_nil]
    rw [show ('&' :: 'a' :: 'm' :: 'p' :: ';' :: t : List Char) = ampEnt ++ t from rfl,
        hpre]
    simp
  · rw [ampOk_cons_ne 'a' (by decide), ampOk_cons_ne 'm' (by decide),
        ampOk_cons_ne 'p' (by decide), ampOk_cons_ne ';' (by decide)]
    exact ht

theorem ampOk_ltEnt (t : List Char) (ht : ampOk t = true) :
    ampOk (ltEnt ++ t) = true := by
  show ampOk ('&' :: ('l' :: 't' :: ';' :: t)) = true
  apply ampOk_cons_entity
  · have hpre := isPrefixOf_append_self ltEnt t
    simp only [htmlEntities, List.any_cons, List.any_nil]
    rw [show ('&' :: 'l' :: 't' :: ';' :: t : List Char) = ltEnt ++ t from rfl, hpre]
    simp
  · rw [ampOk_cons_ne 'l' (by decide), ampOk_cons_ne 't' (by decide),
        ampOk_cons_ne ';' (by decide)]
    exact ht

theorem ampOk_gtEnt (t : List Char) (ht : ampOk t = true) :
    ampOk (gtEnt ++ t) = true := by
  show ampOk ('&' :: ('g' :: 't' :: ';' :: t)) = true
  apply ampOk_cons_entity
  · have hpre := isPrefixOf_append_self gtEnt t
    simp only [htmlEntities, List.any_cons, List.any_nil]
    rw [show ('&' :: 'g' :: 't' :: ';' :: t : List Char) = gtEnt ++ t from rfl, hpre]
    simp
  · rw [ampOk_cons_ne 'g' (by decide), ampOk_cons_ne 't' (by decide),
        ampOk_cons_ne ';' (by decide)]
    exact ht

theorem ampOk_quotEnt (t : List Char) (ht : ampOk t = true) :
    ampOk (quotEnt ++ t) = true := by
  show ampOk ('&' :: ('q' :: 'u' :: 'o' :: 't' :: ';' :: t)) = true
  apply ampOk_cons_entity
  · have hpre := isPrefixOf_append_self quotEnt t
    simp only [htmlEntities, List.any_cons, List.any_nil]
    rw [show ('&' :: 'q' :: 'u' :: 'o' :: 't' :: ';' :: t : List Char) = quotEnt ++ t
          from rfl,
        hpre]
    simp
  · rw [ampOk_cons_ne 'q' (by decide), ampOk_cons_ne 'u' (by decide),
        ampOk_cons_ne 'o' (by decide), ampOk_cons_ne 't' (by decide),
        ampOk_cons_ne ';' (by decide)]
    exact ht

theorem ampOk_num39Ent (t : List Char) (ht : ampOk t = true) :
    ampOk (num39Ent ++ t) = true := by
  show ampOk ('&' :: ('#' :: '3' :: '9' :: ';' :: t)) = true
  apply ampOk_cons_entity
  · have hpre := isPrefixOf_append_self num39Ent t
    simp only [htmlEntities, List.any_cons, List.any_nil]
    rw [show ('&' :: '#' :: '3' :: '9' :: ';' :: t : List Char) = num39Ent ++ t
          from rfl,
        hpre]
    simp
  · rw [ampOk_cons_ne '#' (by decide), ampOk_cons_ne '3' (by decide),
        ampOk_cons_ne '9' (by decide), ampOk_cons_ne ';' (by decide)]
    exact ht

/-- Prepending any single-character expansion preserves entity
well-formedness. -/
theorem ampOk_escChar (x : Char) (t : List Char) (ht : ampOk t = true) :
    ampOk (escChar x ++ t) = true := by
  unfold escChar
  by_cases h1 : x = '&'
  · rw [if_pos h1]
    exact ampOk_ampEnt t ht
  · rw [if_neg h1]
    by_cases h2 : x = '<'
    · rw [if_pos h2]
      exact ampOk_ltEnt t ht
    · rw [if_neg h2]
      by_cases h3 : x = '>'
      · rw [if_pos h3]
        exact ampOk_gtEnt t ht
      · rw [if_neg h3]
        by_cases h4 : x = Char.ofNat 34
        · rw [if_pos h4]
          exact ampOk_quotEnt t ht
        · rw [if_neg h4]
          by_cases h5 : x = Char.ofNat 39
          · rw [if_pos h5]
            exact ampOk_num39Ent t ht
          · rw [if_neg h5]
            show ampOk (x :: t) = true
            rw [ampOk_cons_ne x (beq_eq_false_iff_ne.mpr h1)]
            exact ht

/-- Claim C10: the output of escapeHtml never contains a raw angle bracket
or quote character, and every ampersand in it starts one of the five
entities amp, lt, gt, quot and number-39 - so interpolating escaped text
into invoice or catalog HTML cannot introduce new markup. -/
theorem c10_escapeHtml_safe (s : List Char) :
    (∀ c, c ∈ escapeHtml s → c ∉ forbiddenChars)
      ∧ ampOk (escapeHtml s) = true := by
  induction s with
  | nil => exact ⟨fun c hc => absurd hc (List.not_mem_nil c), rfl⟩
  | cons x xs ih =>
    refine ⟨?_, ?_⟩
    · intro c hc
      rw [escapeHtml_cons] at hc
      rcases List.mem_append.mp hc with h | h
      · exact escChar_mem x c h
      · exact ih.1 c h
    · rw [escapeHtml_cons]
      exact ampOk_escChar x _ ih.2

theorem c10_escapeHtml_safe_witness :
    '<' ∈ (['a', '<', 'b', '&', Char.ofNat 34, Char.ofNat 39] : List Char)
      ∧ 'a' ∈ escapeHtml ['a', '<', 'b', '&', Char.ofNat 34, Char.ofNat 39]
      ∧ 'a' ∉ forbiddenChars
      ∧ ampOk (escapeHtml ['a', '<', 'b', '&', Char.ofNat 34, Char.ofNat 39]) = true :=
  ⟨by decide, by decide,
   (c10_escapeHtml_safe ['a', '<', 'b', '&', Char.ofNat 34, Char.ofNat 39]).1 'a'
     (by decide),
   (c10_escapeHtml_safe ['a', '<', 'b', '&', Char.ofNat 34, Char.ofNat 39]).2⟩
